import Mathlib

/-!
Shallow embedding of the lesson-check engine of the singapore_unibot
repository (src/app/utils/lesson_check.py) and of the schedule sanitizer
(src/app/utils/schedule.py).

Python times-of-day are modelled as seconds since midnight (a Nat below
86400 for every value produced by the parser); dates as explicit
year/month/day triples with the Gregorian calendar; Python dicts of the
lesson payload as a structure whose optional fields model dict.get, and
whose required-field accesses (item["checkinEnd"]) are modelled as
Except, an error standing for the KeyError that such an access raises
when the key is absent.  External collaborators (the database CRUD
layer, the lexicon catalog, the Telegram send) are parameters of the
functions that call them.
-/

namespace UniBot

/-- One ASCII decimal digit of a character, as in the strptime regex. -/
def digitVal (c : Char) : Option Nat :=
  if 48 ≤ c.toNat ∧ c.toNat ≤ 57 then some (c.toNat - 48) else none

/-- Two-digit alternative of one strptime field: matches two digits whose
value is at most hi, then continues with the rest of the pattern.
For hour the regex alternatives 2[0-3] and [0-1]d together accept exactly
the two-digit values up to 23; for minute and second, [0-5]d accepts
exactly the two-digit values up to 59. -/
def comp2 (hi : Nat) (cs : List Char) (k : Nat → List Char → Option Nat) : Option Nat :=
  match cs with
  | a :: b :: rest =>
    match digitVal a with
    | none => none
    | some x =>
      match digitVal b with
      | none => none
      | some y => if 10 * x + y ≤ hi then k (10 * x + y) rest else none
  | _ => none

/-- One-digit alternative of a strptime field. -/
def comp1 (cs : List Char) (k : Nat → List Char → Option Nat) : Option Nat :=
  match cs with
  | a :: rest =>
    match digitVal a with
    | some x => k x rest
    | none => none
  | _ => none

/-- A strptime numeric field with regex-style backtracking: the two-digit
alternative is tried first, and if the remainder of the pattern fails the
one-digit alternative is tried. -/
def comp (hi : Nat) (cs : List Char) (k : Nat → List Char → Option Nat) : Option Nat :=
  match comp2 hi cs k with
  | some r => some r
  | none => comp1 cs k

/-- A literal colon of the format string. -/
def colon (cs : List Char) (k : List Char → Option Nat) : Option Nat :=
  match cs with
  | c :: rest => if c = ':' then k rest else none
  | [] => none

/-- parse_time of lesson_check.py: datetime.strptime(t, "%H:%M:%S").time(),
returning none where the Python function catches ValueError and returns
None.  The whole string must be consumed (strptime rejects unconverted
trailing data).  The result is the time of day in seconds. -/
def parse_time (s : String) : Option Nat :=
  comp 23 s.data fun h r1 =>
    colon r1 fun r2 =>
      comp 59 r2 fun m r3 =>
        colon r3 fun r4 =>
          comp 59 r4 fun sec r5 =>
            if r5 = [] then some (3600 * h + 60 * m + sec) else none

/-- A Python datetime.date. -/
structure PyDate where
  year : Nat
  month : Nat
  day : Nat
  deriving DecidableEq, Repr

/-- Gregorian leap-year rule, as implemented by datetime. -/
def isLeap (y : Nat) : Bool :=
  (y % 4 == 0 && y % 100 != 0) || y % 400 == 0

/-- Length of a month in the Gregorian calendar. -/
def daysInMonth (y m : Nat) : Nat :=
  if m = 2 then (if isLeap y then 29 else 28)
  else if m = 4 ∨ m = 6 ∨ m = 9 ∨ m = 11 then 30
  else 31

/-- date - timedelta(days=1). -/
def prevDay (d : PyDate) : PyDate :=
  if 1 < d.day then ⟨d.year, d.month, d.day - 1⟩
  else if 1 < d.month then ⟨d.year, d.month - 1, daysInMonth d.year (d.month - 1)⟩
  else ⟨d.year - 1, 12, 31⟩

/-- Zero-padded two-digit decimal rendering. -/
def pad2 (n : Nat) : String :=
  if n < 10 then "0" ++ toString n else toString n

/-- Zero-padded four-digit decimal rendering (datetime years are below 10000). -/
def pad4 (n : Nat) : String :=
  if n < 10 then "000" ++ toString n
  else if n < 100 then "00" ++ toString n
  else if n < 1000 then "0" ++ toString n
  else toString n

/-- date.isoformat(): YYYY-MM-DD. -/
def isoformat (d : PyDate) : String :=
  pad4 d.year ++ "-" ++ pad2 d.month ++ "-" ++ pad2 d.day

/-- A Python datetime.datetime: a date and a time of day in seconds. -/
structure PyDateTime where
  date : PyDate
  tod : Nat
  deriving DecidableEq, Repr

/-- (current_time.date() - timedelta(days=1)).isoformat(), the today_str
of get_lessons_to_check. -/
def yesterdayStr (t : PyDateTime) : String :=
  isoformat (prevDay t.date)

/-- One lesson dict of a group schedule, as read by lesson_check.py.
Fields read through dict.get (which yields None when absent) are Options;
checkIn and checkOut are read through dict.get and only tested for
truthiness, so they are Bools (false = falsy: absent, None or False);
checkinEnd and checkoutEnd are read through item["..."], so their absence
is a KeyError, modelled as none here and as an Except.error at the access
site; moduleName, startTime and endTime are only read on lessons that
reach the dispatch loop and are kept as plain strings. -/
structure Lesson where
  scheduleStatus : Option String
  scheduleDate : Option String
  checkIn : Bool
  checkOut : Bool
  checkinEnd : Option String
  checkoutEnd : Option String
  moduleName : String
  startTime : String
  endTime : String
  deriving DecidableEq, Repr

/-- One element of the result list of get_lessons_to_check:
dict(lesson=..., type="entry"|"exit", students=...). -/
structure CheckTask where
  lesson : Lesson
  type : String
  students : List Int
  deriving DecidableEq, Repr

/-- The external collaborator of the matcher: the awaited
get_students_by_group_with_digest of the database CRUD layer. -/
structure MatcherEnv where
  getStudents : Int → List Int

/-- (datetime.combine(date.today(), endT) - timedelta(minutes=5)).time():
subtracting five minutes from a datetime and taking the time of day wraps
across midnight. -/
def windowStart (endT : Nat) : Nat :=
  (endT + 86400 - 300) % 86400

/-- window_start <= now <= end, the window test of get_lessons_to_check. -/
def inWindow (endT now : Nat) : Bool :=
  decide (windowStart endT ≤ now ∧ now ≤ endT)

/-- The if not lesson.get("checkIn") block of get_lessons_to_check:
ok (some entryTasks) falls through to the exit block, ok none is the
continue taken when the deadline is unparseable (skipping the exit block
of the same lesson), and error is the KeyError of lesson["checkinEnd"]
when the key is absent. -/
def entryStep (lesson : Lesson) (now : Nat) (students : List Int) :
    Except Unit (Option (List CheckTask)) :=
  if lesson.checkIn then .ok (some [])
  else
    match lesson.checkinEnd with
    | none => .error ()
    | some s =>
      match parse_time s with
      | none => .ok none
      | some endT =>
        .ok (some (if inWindow endT now
          then [⟨lesson, "entry", students⟩] else []))

/-- The if not lesson.get("checkOut") block of get_lessons_to_check,
entered with the tasks the entry block already appended: an unparseable
deadline continues keeping those, a missing checkoutEnd key raises. -/
def exitStep (lesson : Lesson) (now : Nat) (students : List Int)
    (entryTasks : List CheckTask) : Except Unit (List CheckTask) :=
  if lesson.checkOut then .ok entryTasks
  else
    match lesson.checkoutEnd with
    | none => .error ()
    | some s =>
      match parse_time s with
      | none => .ok entryTasks
      | some endT =>
        .ok (entryTasks ++ (if inWindow endT now
          then [⟨lesson, "exit", students⟩] else []))

/-- The body of the per-lesson loop of get_lessons_to_check: the tasks one
lesson contributes. An ok [] is a continue; an error is the KeyError that
lesson["checkinEnd"] or lesson["checkoutEnd"] raises when absent, which
aborts the whole call. -/
def lessonTasks (env : MatcherEnv) (group_id : Option Int) (todayStr : String)
    (now : Nat) (lesson : Lesson) : Except Unit (List CheckTask) :=
  if lesson.scheduleStatus ≠ some "ACTIVE" then .ok []
  else if (lesson.scheduleDate.getD "").take 10 ≠ todayStr then .ok []
  else
    match group_id with
    | none => .ok []
    | some g =>
      if (env.getStudents g).isEmpty then .ok []
      else
        match entryStep lesson now (env.getStudents g) with
        | .error e => .error e
        | .ok none => .ok []
        | .ok (some entryTasks) =>
          exitStep lesson now (env.getStudents g) entryTasks

/-- The loop of get_lessons_to_check over the schedule list, accumulating
the result and propagating a KeyError. -/
def getLessonsAux (env : MatcherEnv) (group_id : Option Int) (todayStr : String)
    (now : Nat) : List Lesson → Except Unit (List CheckTask)
  | [] => .ok []
  | lesson :: rest =>
    match lessonTasks env group_id todayStr now lesson with
    | .error e => .error e
    | .ok ts =>
      match getLessonsAux env group_id todayStr now rest with
      | .error e => .error e
      | .ok rs => .ok (ts ++ rs)

/-- get_lessons_to_check(group_id, schedule_data, current_time) of
lesson_check.py, with the awaited student fetch supplied by env. -/
def get_lessons_to_check (env : MatcherEnv) (group_id : Option Int)
    (schedule_data : List Lesson) (current_time : PyDateTime) :
    Except Unit (List CheckTask) :=
  getLessonsAux env group_id (yesterdayStr current_time) current_time.tod
    schedule_data

/-- A notification key: (user_id, lesson["moduleName"], action_type). -/
abbrev Key := Int × String × String

/-- Python s[:-3], dropping the trailing seconds of a HH:MM:SS string. -/
def dropSeconds (s : String) : String :=
  ⟨s.data.take (s.data.length - 3)⟩

/-- Python x or "en": falsy (None or the empty string) falls back. -/
def pyOr (x : Option String) (d : String) : String :=
  match x with
  | none => d
  | some l => if l = "" then d else l

/-- External collaborators of check_lesson_marks: the student fetch of the
matcher, the awaited get_user_language, the message catalog LEXICON_MSG
(modelled from the spec: the lexicon module is not under src/; a total
mapping from template key and language to a list of template variants),
random.choice among the variants, str.format interpolating the two
positional slots, and the Telegram bot.send_message, true meaning the
send succeeded and false meaning it raised. -/
structure DispatchEnv where
  matcher : MatcherEnv
  getUserLanguage : Int → Option String
  lexicon : String → String → List String
  choice : List String → String
  formatMsg : String → String → String → String
  sendOk : Int → String → Bool

/-- The text built for one student: template chosen from the catalog by
action type and language, interpolated with the module name and the
start (entry) or end (exit) time without its seconds. -/
def buildText (env : DispatchEnv) (lesson : Lesson) (lang action_type : String) :
    String :=
  if action_type = "entry" then
    env.formatMsg (env.choice (env.lexicon "lesson_check_entry" lang))
      lesson.moduleName (dropSeconds lesson.startTime)
  else
    env.formatMsg (env.choice (env.lexicon "lesson_check_exit" lang))
      lesson.moduleName (dropSeconds lesson.endTime)

/-- The per-student loop of check_lesson_marks for one task: threads the
notified set, returns it with the list of (user_id, text) messages
actually sent.  A key already in the set is skipped; a send that raises
is caught and the loop continues without recording the key; a send that
succeeds records the key. -/
def processStudents (env : DispatchEnv) (lesson : Lesson) (action_type : String) :
    List Int → List Key → List Key × List (Int × String)
  | [], s => (s, [])
  | u :: rest, s =>
    let key : Key := (u, lesson.moduleName, action_type)
    if key ∈ s then processStudents env lesson action_type rest s
    else
      let lang := pyOr (env.getUserLanguage u) "en"
      let text := buildText env lesson lang action_type
      if env.sendOk u text then
        let r := processStudents env lesson action_type rest (key :: s)
        (r.1, (u, text) :: r.2)
      else
        processStudents env lesson action_type rest s

/-- The loop of check_lesson_marks over the tasks of one group. -/
def processEntries (env : DispatchEnv) :
    List CheckTask → List Key → List Key × List (Int × String)
  | [], s => (s, [])
  | task :: rest, s =>
    let r1 := processStudents env task.lesson task.type task.students s
    let r2 := processEntries env rest r1.1
    (r2.1, r1.2 ++ r2.2)

/-- The loop of check_lesson_marks over the groups.  A KeyError escaping
get_lessons_to_check is caught by the function-level handler: the
remaining groups are not processed, the sends already made and the keys
already recorded stand, and the caller sees no exception; the Bool
records that the cycle was cut short by that handler. -/
def processGroups (env : DispatchEnv) (now : PyDateTime) :
    List (Option Int × List Lesson) → List Key →
    List Key × List (Int × String) × Bool
  | [], s => (s, [], false)
  | (group_id, schedule_data) :: rest, s =>
    match get_lessons_to_check env.matcher group_id schedule_data now with
    | .error _ => (s, [], true)
    | .ok tasks =>
      let r1 := processEntries env tasks s
      let r2 := processGroups env now rest r1.1
      (r2.1, r1.2 ++ r2.2.1, r2.2.2)

/-- The observable outcome of one check_lesson_marks cycle: the notified
set after the cycle, the messages sent, whether the empty-schedule
warning was logged, and whether the function-level exception handler cut
the cycle short.  check_lesson_marks itself never raises to its caller. -/
structure CycleResult where
  notified : List Key
  sent : List (Int × String)
  warnedNoSchedules : Bool
  aborted : Bool
  deriving DecidableEq, Repr

/-- check_lesson_marks of lesson_check.py: the awaited
get_all_group_schedules_today result is the group_schedules argument (a
dict modelled as a list of pairs, falsy when empty), the module global
notified_set is the s argument, threaded to the result. -/
def check_lesson_marks (env : DispatchEnv) (now : PyDateTime)
    (group_schedules : List (Option Int × List Lesson)) (s : List Key) :
    CycleResult :=
  if group_schedules.isEmpty then ⟨s, [], true, false⟩
  else
    let r := processGroups env now group_schedules s
    ⟨r.1, r.2.1, false, r.2.2⟩

/-- The membership test of the deduplicator, key in notified_set at line
119 of lesson_check.py, phrased as the spec's shouldNotify contract. -/
def shouldNotify (s : List Key) (k : Key) : Bool :=
  ! decide (k ∈ s)

/-- The insertion of the deduplicator, notified_set.add(key) at line 145
of lesson_check.py, phrased as the spec's markNotified contract. -/
def markNotified (s : List Key) (k : Key) : List Key :=
  if k ∈ s then s else k :: s

/-- REMINDER_TIMES of lesson_check.py: wall-clock (hour, minute) and label. -/
def REMINDER_TIMES : List ((Nat × Nat) × String) :=
  [((9, 35), "entry"), ((10, 55), "exit"),
   ((11, 5), "entry"), ((12, 25), "exit"),
   ((12, 35), "entry"), ((13, 55), "exit"),
   ((13, 5), "entry"), ((15, 25), "exit"),
   ((15, 35), "entry"), ((16, 55), "exit"),
   ((17, 5), "entry"), ((18, 25), "exit")]

/-- The arguments of one scheduler.add_job call: the CronTrigger fields,
the job id and replace_existing. -/
structure JobSpec where
  hour : Nat
  minute : Nat
  dayOfWeek : String
  id : String
  replaceExisting : Bool
  deriving DecidableEq, Repr

/-- f"lesson_check_{t.hour}_{t.minute}_{label}". -/
def jobId (h m : Nat) (label : String) : String :=
  "lesson_check_" ++ toString h ++ "_" ++ toString m ++ "_" ++ label

/-- The fallible APScheduler operations that setup_lesson_check_scheduler
performs, any of which may raise: constructing the scheduler,
registering one job (state passing models the mutation), starting. -/
structure SchedulerEnv (E S : Type) where
  mkScheduler : Except E S
  addJob : S → JobSpec → Except E S
  start : S → Except E Unit

/-- The for loop over REMINDER_TIMES registering the cron jobs. -/
def addJobs {E S : Type} (env : SchedulerEnv E S) (s : S) :
    List ((Nat × Nat) × String) → Except E S
  | [] => .ok s
  | (t, label) :: rest =>
    match env.addJob s ⟨t.1, t.2, "mon-sat", jobId t.1 t.2 label, true⟩ with
    | .error e => .error e
    | .ok s2 => addJobs env s2 rest

/-- The body of the try block of setup_lesson_check_scheduler: construct,
register every reminder job, start. -/
def rawSetup {E S : Type} (env : SchedulerEnv E S) : Except E Unit :=
  match env.mkScheduler with
  | .error e => .error e
  | .ok s0 =>
    match addJobs env s0 REMINDER_TIMES with
    | .error e => .error e
    | .ok s1 => env.start s1

/-- setup_lesson_check_scheduler of lesson_check.py: the except handler
logs the exception and re-raises it unchanged. -/
def setup_lesson_check_scheduler {E S : Type} (env : SchedulerEnv E S) :
    Except E Unit :=
  match rawSetup env with
  | .ok u => .ok u
  | .error e => .error e

/-- needed_fields of sanitize_schedule_data in schedule.py. -/
def needed_fields : List String :=
  ["scheduleDate", "startTime", "endTime", "moduleName",
   "venueName", "lecturerName", "lessonTypeName", "scheduleStatus"]

/-- Python key in item / item[key] on a dict modelled as an association
list (a real dict has each key at most once; lookup takes the first). -/
def pyDictFind {V : Type} (item : List (String × V)) (k : String) : Option V :=
  (item.find? fun kv => kv.1 == k).map Prod.snd

/-- The dict comprehension of sanitize_schedule_data for one item:
iterate needed_fields in order, keep the keys present in the item. -/
def sanitizeItem {V : Type} (item : List (String × V)) : List (String × V) :=
  needed_fields.filterMap fun k =>
    match pyDictFind item k with
    | some v => some (k, v)
    | none => none

/-- sanitize_schedule_data of schedule.py. -/
def sanitize_schedule_data {V : Type} (data : List (List (String × V))) :
    List (List (String × V)) :=
  data.map sanitizeItem

/-! Concrete data used to evaluate the theorems below on closed inputs. -/

/-- A matcher environment with one digest-enabled student in every group. -/
def envW : MatcherEnv := ⟨fun _ => [7]⟩

/-- A dispatch environment: every user's language is unset, the catalog has
one template variant, and the send to user 5 raises while every other
send succeeds. -/
def envD : DispatchEnv :=
  ⟨envW, fun _ => none, fun _ _ => ["T"], fun l => l.headD "",
   fun t a b => t ++ a ++ b, fun u _ => decide (u ≠ 5)⟩

/-- The timestamp 2026-10-12 09:36:40, whose yesterday is 2026-10-11. -/
def ctW : PyDateTime := ⟨⟨2026, 10, 12⟩, 34600⟩

/-- An ACTIVE lesson of 2026-10-11 with both check deadlines present. -/
def lessonW : Lesson :=
  ⟨some "ACTIVE", some "2026-10-11", false, false, some "09:40:00",
   some "10:55:00", "Algebra", "09:35:00", "10:55:00"⟩

/-- An ACTIVE lesson whose check-in deadline is present and its check-out
already marked. -/
def lessonGoodW : Lesson :=
  ⟨some "ACTIVE", some "2026-10-11", false, true, some "09:40:00", none,
   "Algebra", "09:35:00", "10:55:00"⟩

/-- An ACTIVE lesson whose checkinEnd is present but unparseable. -/
def lessonBadTimeW : Lesson :=
  ⟨some "ACTIVE", some "2026-10-11", false, true, some "oops", none,
   "Physics", "09:35:00", "10:55:00"⟩

/-- A very short ACTIVE lesson whose entry and exit windows are both open
at 09:37:00 (34620 s): check-in ends 09:40:00, check-out ends 09:42:00. -/
def lessonShortW : Lesson :=
  ⟨some "ACTIVE", some "2026-10-11", false, false, some "09:40:00",
   some "09:42:00", "Drill", "09:00:00", "09:42:00"⟩

/-- A lesson dict of the sanitizer, carrying attendance fields. -/
def rawItemW : List (String × String) :=
  [("scheduleDate", "2026-10-11"), ("checkIn", "True"),
   ("checkinEnd", "09:40:00"), ("moduleName", "Algebra")]

/-- A scheduler environment whose construction step raises. -/
def schedEnvFail : SchedulerEnv String Unit :=
  ⟨.error "boom", fun _ _ => .ok (), fun _ => .ok ()⟩

/-! Helper lemmas about the time parser: every parsed value is a valid
time of day, below 86400 seconds. -/

lemma digitVal_le {c : Char} {x : Nat} (h : digitVal c = some x) : x ≤ 9 := by
  unfold digitVal at h
  split at h
  · injection h with hx
    omega
  · exact Option.noConfusion h

lemma comp2_bound {hi : Nat} {cs : List Char} {k : Nat → List Char → Option Nat}
    {r : Nat} (h : comp2 hi cs k = some r) :
    ∃ v rest, v ≤ hi ∧ k v rest = some r := by
  rcases cs with _ | ⟨a, _ | ⟨b, rest⟩⟩
  · exact Option.noConfusion h
  · exact Option.noConfusion h
  · simp only [comp2] at h
    rcases hda : digitVal a with _ | x <;> rw [hda] at h
    · exact Option.noConfusion h
    · rcases hdb : digitVal b with _ | y <;> rw [hdb] at h
      · exact Option.noConfusion h
      · have h' : (if 10 * x + y ≤ hi then k (10 * x + y) rest else none)
            = some r := h
        by_cases hle : 10 * x + y ≤ hi
        · rw [if_pos hle] at h'
          exact ⟨10 * x + y, rest, hle, h'⟩
        · rw [if_neg hle] at h'
          exact Option.noConfusion h'

lemma comp1_bound {cs : List Char} {k : Nat → List Char → Option Nat}
    {r : Nat} (h : comp1 cs k = some r) :
    ∃ v rest, v ≤ 9 ∧ k v rest = some r := by
  rcases cs with _ | ⟨a, rest⟩
  · exact Option.noConfusion h
  · simp only [comp1] at h
    rcases hda : digitVal a with _ | x <;> rw [hda] at h
    · exact Option.noConfusion h
    · exact ⟨x, rest, digitVal_le hda, h⟩

lemma comp_bound {hi : Nat} {cs : List Char} {k : Nat → List Char → Option Nat}
    {r : Nat} (h9 : 9 ≤ hi) (h : comp hi cs k = some r) :
    ∃ v rest, v ≤ hi ∧ k v rest = some r := by
  unfold comp at h
  rcases h2 : comp2 hi cs k with _ | r2 <;> rw [h2] at h
  · obtain ⟨v, rest, hv, hk⟩ := comp1_bound h
    exact ⟨v, rest, le_trans hv h9, hk⟩
  · cases h
    exact comp2_bound h2

lemma colon_bound {cs : List Char} {k : List Char → Option Nat} {r : Nat}
    (h : colon cs k = some r) : ∃ rest, k rest = some r := by
  rcases cs with _ | ⟨c, rest⟩
  · exact Option.noConfusion h
  · simp only [colon] at h
    split at h
    · exact ⟨rest, h⟩
    · exact Option.noConfusion h

/-- Every value parse_time accepts is a valid time of day in seconds. -/
lemma parse_time_lt {s : String} {t : Nat} (h : parse_time s = some t) :
    t < 86400 := by
  unfold parse_time at h
  obtain ⟨h1, r1, hh, h⟩ := comp_bound (by omega) h
  obtain ⟨r2, h⟩ := colon_bound h
  obtain ⟨m1, r3, hm, h⟩ := comp_bound (by omega) h
  obtain ⟨r4, h⟩ := colon_bound h
  obtain ⟨s1, r5, hs, h⟩ := comp_bound (by omega) h
  split at h
  · injection h with ht
    omega
  · exact Option.noConfusion h

/-- Below five minutes past midnight the window start wraps to late
evening; otherwise it is exactly five minutes before the deadline. -/
lemma windowStart_eq {t : Nat} (h3 : 300 ≤ t) (hlt : t < 86400) :
    windowStart t = t - 300 := by
  unfold windowStart
  omega

lemma inWindow_iff {t : Nat} (now : Nat) (h3 : 300 ≤ t) (hlt : t < 86400) :
    inWindow t now = true ↔ (t - 300 ≤ now ∧ now ≤ t) := by
  rw [inWindow, windowStart_eq h3 hlt]
  simp

/-- The tasks one well-formed lesson contributes: for an ACTIVE lesson of
yesterday with digest students whose two deadline strings parse, each
window contributes its task exactly when its flag is falsy and its window
test passes. -/
lemma lessonTasks_good
    (env : MatcherEnv) (g : Int) (todayStr : String) (now : Nat)
    (lesson : Lesson) (sIn sOut : String) (tin tout : Nat)
    (hst : lesson.scheduleStatus = some "ACTIVE")
    (hdate : (lesson.scheduleDate.getD "").take 10 = todayStr)
    (hne : env.getStudents g ≠ [])
    (hin : lesson.checkinEnd = some sIn) (hpin : parse_time sIn = some tin)
    (hout : lesson.checkoutEnd = some sOut) (hpout : parse_time sOut = some tout) :
    lessonTasks env (some g) todayStr now lesson =
      .ok ((if lesson.checkIn = false ∧ inWindow tin now = true
              then [⟨lesson, "entry", env.getStudents g⟩] else [])
        ++ (if lesson.checkOut = false ∧ inWindow tout now = true
              then [⟨lesson, "exit", env.getStudents g⟩] else [])) := by
  have hne' : (env.getStudents g).isEmpty = false := by
    cases hg : env.getStudents g
    · exact absurd hg hne
    · rfl
  cases hci : lesson.checkIn <;> cases hco : lesson.checkOut <;>
    cases hw1 : inWindow tin now <;> cases hw2 : inWindow tout now <;>
      simp [lessonTasks, entryStep, exitStep, hst, hdate, hin, hpin, hout,
        hpout, hne', hci, hco, hw1, hw2]

/-- get_lessons_to_check on a single well-formed lesson. -/
lemma get_lessons_single
    (env : MatcherEnv) (g : Int) (lesson : Lesson) (ct : PyDateTime)
    (sIn sOut : String) (tin tout : Nat)
    (hst : lesson.scheduleStatus = some "ACTIVE")
    (hdate : (lesson.scheduleDate.getD "").take 10 = yesterdayStr ct)
    (hne : env.getStudents g ≠ [])
    (hin : lesson.checkinEnd = some sIn) (hpin : parse_time sIn = some tin)
    (hout : lesson.checkoutEnd = some sOut) (hpout : parse_time sOut = some tout) :
    get_lessons_to_check env (some g) [lesson] ct =
      .ok ((if lesson.checkIn = false ∧ inWindow tin ct.tod = true
              then [⟨lesson, "entry", env.getStudents g⟩] else [])
        ++ (if lesson.checkOut = false ∧ inWindow tout ct.tod = true
              then [⟨lesson, "exit", env.getStudents g⟩] else [])) := by
  unfold get_lessons_to_check getLessonsAux
  rw [lessonTasks_good env g (yesterdayStr ct) ct.tod lesson sIn sOut tin tout
    hst hdate hne hin hpin hout hpout]
  simp [getLessonsAux]

/-- C1: for an ACTIVE lesson of yesterday with a digest-enabled student,
get_lessons_to_check produces the entry task exactly when checkIn is
falsy and now lies in the closed window [checkinEnd - 5 min, checkinEnd],
and the exit task exactly when checkOut is falsy and now lies in
[checkoutEnd - 5 min, checkoutEnd]; both bounds are included and, the
equivalence holding at every timestamp, a time one minute outside either
bound of a window produces no task for that window.  The deadlines are
assumed no earlier than 00:05:00; a deadline before that wraps and is
settled separately. -/
theorem checkWindows_iff
    (env : MatcherEnv) (g : Int) (lesson : Lesson) (ct : PyDateTime)
    (sIn sOut : String) (tin tout : Nat) (res : List CheckTask)
    (hst : lesson.scheduleStatus = some "ACTIVE")
    (hdate : (lesson.scheduleDate.getD "").take 10 = yesterdayStr ct)
    (hne : env.getStudents g ≠ [])
    (hin : lesson.checkinEnd = some sIn) (hpin : parse_time sIn = some tin)
    (h3in : 300 ≤ tin)
    (hout : lesson.checkoutEnd = some sOut) (hpout : parse_time sOut = some tout)
    (h3out : 300 ≤ tout)
    (hres : get_lessons_to_check env (some g) [lesson] ct = .ok res) :
    ((⟨lesson, "entry", env.getStudents g⟩ : CheckTask) ∈ res ↔
      (lesson.checkIn = false ∧ tin - 300 ≤ ct.tod ∧ ct.tod ≤ tin)) ∧
    ((⟨lesson, "exit", env.getStudents g⟩ : CheckTask) ∈ res ↔
      (lesson.checkOut = false ∧ tout - 300 ≤ ct.tod ∧ ct.tod ≤ tout)) := by
  have hltin : tin < 86400 := parse_time_lt hpin
  have hltout : tout < 86400 := parse_time_lt hpout
  rw [get_lessons_single env g lesson ct sIn sOut tin tout
    hst hdate hne hin hpin hout hpout] at hres
  injection hres with hres
  subst hres
  constructor
  · rw [← inWindow_iff ct.tod h3in hltin]
    by_cases hq : lesson.checkOut = false ∧ inWindow tout ct.tod = true <;>
      by_cases hp : lesson.checkIn = false ∧ inWindow tin ct.tod = true <;>
        simp [hp, hq]
  · rw [← inWindow_iff ct.tod h3out hltout]
    by_cases hq : lesson.checkOut = false ∧ inWindow tout ct.tod = true <;>
      by_cases hp : lesson.checkIn = false ∧ inWindow tin ct.tod = true <;>
        simp [hp, hq]

/-- Witness for C1: at 09:36:40 the 09:40:00 entry window of lessonW is
open and its 10:55:00 exit window is not; the result holds exactly the
entry task. -/
theorem checkWindows_iff_witness :
    ((⟨lessonW, "entry", envW.getStudents 1⟩ : CheckTask) ∈
        [(⟨lessonW, "entry", envW.getStudents 1⟩ : CheckTask)] ↔
      (lessonW.checkIn = false ∧ 34800 - 300 ≤ ctW.tod ∧ ctW.tod ≤ 34800)) ∧
    ((⟨lessonW, "exit", envW.getStudents 1⟩ : CheckTask) ∈
        [(⟨lessonW, "entry", envW.getStudents 1⟩ : CheckTask)] ↔
      (lessonW.checkOut = false ∧ 39300 - 300 ≤ ctW.tod ∧ ctW.tod ≤ 39300)) :=
  checkWindows_iff envW 1 lessonW ctW "09:40:00" "10:55:00" 34800 39300
    [⟨lessonW, "entry", envW.getStudents 1⟩] rfl rfl (by decide) rfl
    (by decide) (by decide) rfl (by decide) (by decide) rfl

/-- C4: when the entry and exit windows of one lesson are both open at
now (checkIn and checkOut both falsy, now inside both closed windows),
get_lessons_to_check produces both the entry task and the exit task in
the same call; the exit window is evaluated independently of the entry
window's outcome. -/
theorem both_windows_both_tasks
    (env : MatcherEnv) (g : Int) (lesson : Lesson) (ct : PyDateTime)
    (sIn sOut : String) (tin tout : Nat)
    (hst : lesson.scheduleStatus = some "ACTIVE")
    (hdate : (lesson.scheduleDate.getD "").take 10 = yesterdayStr ct)
    (hne : env.getStudents g ≠ [])
    (hin : lesson.checkinEnd = some sIn) (hpin : parse_time sIn = some tin)
    (h3in : 300 ≤ tin)
    (hout : lesson.checkoutEnd = some sOut) (hpout : parse_time sOut = some tout)
    (h3out : 300 ≤ tout)
    (hci : lesson.checkIn = false) (hco : lesson.checkOut = false)
    (hw1 : tin - 300 ≤ ct.tod) (hw2 : ct.tod ≤ tin)
    (hw3 : tout - 300 ≤ ct.tod) (hw4 : ct.tod ≤ tout) :
    get_lessons_to_check env (some g) [lesson] ct =
      .ok [⟨lesson, "entry", env.getStudents g⟩,
           ⟨lesson, "exit", env.getStudents g⟩] := by
  have hwin : inWindow tin ct.tod = true :=
    (inWindow_iff ct.tod h3in (parse_time_lt hpin)).mpr ⟨hw1, hw2⟩
  have hwout : inWindow tout ct.tod = true :=
    (inWindow_iff ct.tod h3out (parse_time_lt hpout)).mpr ⟨hw3, hw4⟩
  rw [get_lessons_single env g lesson ct sIn sOut tin tout
    hst hdate hne hin hpin hout hpout]
  simp [hci, hco, hwin, hwout]

/-- Every task an entry block emits is the entry task of its lesson, and
it is emitted only with checkIn falsy, a parsed deadline and an open
window. -/
lemma entryStep_mem {lesson : Lesson} {now : Nat} {students : List Int}
    {ts : List CheckTask} {task : CheckTask}
    (h : entryStep lesson now students = .ok (some ts)) (hm : task ∈ ts) :
    task = ⟨lesson, "entry", students⟩ ∧ lesson.checkIn = false ∧
    ∃ s t, lesson.checkinEnd = some s ∧ parse_time s = some t ∧
      inWindow t now = true := by
  unfold entryStep at h
  split at h
  · cases h
    simp at hm
  · next hci =>
    split at h
    · exact Except.noConfusion h
    · next s heq =>
      split at h
      · injection h with h
        exact Option.noConfusion h
      · next t hp =>
        injection h with h
        injection h with h
        subst h
        split at hm
        · next hw =>
          simp only [List.mem_singleton] at hm
          exact ⟨hm, by simpa using hci, s, t, heq, hp, hw⟩
        · simp at hm

/-- Every task an exit block emits is either one the entry block already
appended or the exit task of its lesson, the latter only with checkOut
falsy, a parsed deadline and an open window. -/
lemma exitStep_mem {lesson : Lesson} {now : Nat} {students : List Int}
    {entryTasks ts : List CheckTask} {task : CheckTask}
    (h : exitStep lesson now students entryTasks = .ok ts) (hm : task ∈ ts) :
    task ∈ entryTasks ∨
    (task = ⟨lesson, "exit", students⟩ ∧ lesson.checkOut = false ∧
      ∃ s t, lesson.checkoutEnd = some s ∧ parse_time s = some t ∧
        inWindow t now = true) := by
  unfold exitStep at h
  split at h
  · cases h
    exact Or.inl hm
  · next hco =>
    split at h
    · exact Except.noConfusion h
    · next s heq =>
      split at h
      · cases h
        exact Or.inl hm
      · next t hp =>
        injection h with h
        subst h
        rcases List.mem_append.mp hm with hm1 | hm2
        · exact Or.inl hm1
        · split at hm2
          · next hw =>
            simp only [List.mem_singleton] at hm2
            exact Or.inr ⟨hm2, by simpa using hco, s, t, heq, hp, hw⟩
          · simp at hm2

/-- Every task a lesson contributes carries that lesson, and only an
ACTIVE lesson dated yesterday contributes at all. -/
lemma lessonTasks_mem {env : MatcherEnv} {gid : Option Int} {todayStr : String}
    {now : Nat} {lesson : Lesson} {ts : List CheckTask} {task : CheckTask}
    (h : lessonTasks env gid todayStr now lesson = .ok ts) (hm : task ∈ ts) :
    task.lesson = lesson ∧ lesson.scheduleStatus = some "ACTIVE" ∧
      (lesson.scheduleDate.getD "").take 10 = todayStr := by
  unfold lessonTasks at h
  split at h
  · cases h
    simp at hm
  · next hst =>
    split at h
    · cases h
      simp at hm
    · next hdate =>
      split at h
      · cases h
        simp at hm
      · next g =>
        split at h
        · cases h
          simp at hm
        · split at h
          · exact Except.noConfusion h
          · cases h
            simp at hm
          · next entryTasks heq =>
            refine ⟨?_, by simpa using hst, by simpa using hdate⟩
            rcases exitStep_mem h hm with hm1 | ⟨heq2, _⟩
            · rw [(entryStep_mem heq hm1).1]
            · rw [heq2]

lemma getLessonsAux_mem {env : MatcherEnv} {gid : Option Int} {todayStr : String}
    {now : Nat} : ∀ {L : List Lesson} {res : List CheckTask} {task : CheckTask},
    getLessonsAux env gid todayStr now L = .ok res → task ∈ res →
    task.lesson.scheduleStatus = some "ACTIVE" ∧
      (task.lesson.scheduleDate.getD "").take 10 = todayStr := by
  intro L
  induction L with
  | nil =>
    intro res task h hm
    cases h
    simp at hm
  | cons lesson rest ih =>
    intro res task h hm
    unfold getLessonsAux at h
    split at h
    · exact Except.noConfusion h
    · next ts heq =>
      split at h
      · exact Except.noConfusion h
      · next rs heq2 =>
        cases h
        rcases List.mem_append.mp hm with hm1 | hm2
        · obtain ⟨hl, hst, hdate⟩ := lessonTasks_mem heq hm1
          rw [hl]
          exact ⟨hst, hdate⟩
        · exact ih heq2 hm2

/-- C5: get_lessons_to_check never produces a task for a lesson whose
scheduleStatus differs from ACTIVE or whose scheduleDate (first ten
characters) is not the ISO date of the calendar day before the given
timestamp's date: every produced task's lesson passes both filters. -/
theorem tasks_only_active_yesterday
    (env : MatcherEnv) (gid : Option Int) (sched : List Lesson)
    (ct : PyDateTime) (res : List CheckTask) (task : CheckTask)
    (hres : get_lessons_to_check env gid sched ct = .ok res)
    (hm : task ∈ res) :
    task.lesson.scheduleStatus = some "ACTIVE" ∧
      (task.lesson.scheduleDate.getD "").take 10 = yesterdayStr ct :=
  getLessonsAux_mem hres hm

/-- Witness for C5: the task produced for lessonGoodW carries an ACTIVE
lesson dated yesterday. -/
theorem tasks_only_active_yesterday_witness :
    (⟨lessonGoodW, "entry", [7]⟩ : CheckTask).lesson.scheduleStatus =
        some "ACTIVE" ∧
      ((⟨lessonGoodW, "entry", [7]⟩ : CheckTask).lesson.scheduleDate.getD
        "").take 10 = yesterdayStr ctW :=
  tasks_only_active_yesterday envW (some 1) [lessonGoodW] ctW
    [⟨lessonGoodW, "entry", [7]⟩] ⟨lessonGoodW, "entry", [7]⟩ rfl
    (List.mem_singleton.mpr rfl)

/-- Witness for C4: at 09:37:00 both windows of the short lesson are
open and both tasks are produced. -/
theorem both_windows_both_tasks_witness :
    get_lessons_to_check envW (some 1) [lessonShortW] ⟨⟨2026, 10, 12⟩, 34620⟩ =
      .ok [⟨lessonShortW, "entry", envW.getStudents 1⟩,
           ⟨lessonShortW, "exit", envW.getStudents 1⟩] :=
  both_windows_both_tasks envW 1 lessonShortW ⟨⟨2026, 10, 12⟩, 34620⟩
    "09:40:00" "09:42:00" 34800 34920 rfl rfl (by decide) rfl (by decide)
    (by decide) rfl (by decide) (by decide) rfl rfl (by decide) (by decide)
    (by decide) (by decide)

/-- A successful single-lesson call is exactly that lesson's contribution. -/
lemma get_single_ok {env : MatcherEnv} {gid : Option Int} {lesson : Lesson}
    {ct : PyDateTime} {res : List CheckTask}
    (h : get_lessons_to_check env gid [lesson] ct = .ok res) :
    lessonTasks env gid (yesterdayStr ct) ct.tod lesson = .ok res := by
  unfold get_lessons_to_check getLessonsAux at h
  split at h
  · exact Except.noConfusion h
  · next ts heq =>
    cases h
    rw [List.append_nil]
    exact heq

/-- A deadline strictly before 00:05:00 wraps: its window test is
unsatisfiable at every time of day. -/
lemma wrap_unsat {t : Nat} (h : t < 300) (now : Nat) : inWindow t now = false := by
  simp only [inWindow, windowStart, decide_eq_false_iff_not]
  omega

/-- An entry task is only contributed with an open entry window on the
parsed checkinEnd. -/
lemma lessonTasks_entry_mem {env : MatcherEnv} {gid : Option Int}
    {todayStr : String} {now : Nat} {lesson : Lesson} {ts : List CheckTask}
    {task : CheckTask}
    (h : lessonTasks env gid todayStr now lesson = .ok ts) (hm : task ∈ ts)
    (hty : task.type = "entry") :
    ∃ s t, lesson.checkinEnd = some s ∧ parse_time s = some t ∧
      inWindow t now = true := by
  unfold lessonTasks at h
  split at h
  · cases h
    simp at hm
  · split at h
    · cases h
      simp at hm
    · split at h
      · cases h
        simp at hm
      · split at h
        · cases h
          simp at hm
        · split at h
          · exact Except.noConfusion h
          · cases h
            simp at hm
          · next entryTasks heq =>
            rcases exitStep_mem h hm with hm1 | ⟨heq2, _⟩
            · exact (entryStep_mem heq hm1).2.2
            · rw [heq2] at hty
              simp at hty

/-- An exit task is only contributed with an open exit window on the
parsed checkoutEnd. -/
lemma lessonTasks_exit_mem {env : MatcherEnv} {gid : Option Int}
    {todayStr : String} {now : Nat} {lesson : Lesson} {ts : List CheckTask}
    {task : CheckTask}
    (h : lessonTasks env gid todayStr now lesson = .ok ts) (hm : task ∈ ts)
    (hty : task.type = "exit") :
    ∃ s t, lesson.checkoutEnd = some s ∧ parse_time s = some t ∧
      inWindow t now = true := by
  unfold lessonTasks at h
  split at h
  · cases h
    simp at hm
  · split at h
    · cases h
      simp at hm
    · split at h
      · cases h
        simp at hm
      · split at h
        · cases h
          simp at hm
        · split at h
          · exact Except.noConfusion h
          · cases h
            simp at hm
          · next entryTasks heq =>
            rcases exitStep_mem h hm with hm1 | ⟨_, _, hex⟩
            · rw [(entryStep_mem heq hm1).1] at hty
              simp at hty
            · exact hex

/-- C9: the window comparison is on wall-clock times-of-day without
wrapping across midnight: a deadline strictly earlier than 00:05:00 makes
window_start wrap to late evening, the window test is unsatisfiable at
every time of day, and the corresponding task is never produced for such
a lesson. -/
theorem midnight_wrap_no_task (t : Nat) (h : t < 300) :
    (∀ now, inWindow t now = false) ∧
    (∀ (env : MatcherEnv) (gid : Option Int) (ct : PyDateTime)
      (lesson : Lesson) (s : String) (res : List CheckTask),
      lesson.checkinEnd = some s → parse_time s = some t →
      get_lessons_to_check env gid [lesson] ct = .ok res →
      res.countP (fun task => task.type == "entry") = 0) ∧
    (∀ (env : MatcherEnv) (gid : Option Int) (ct : PyDateTime)
      (lesson : Lesson) (s : String) (res : List CheckTask),
      lesson.checkoutEnd = some s → parse_time s = some t →
      get_lessons_to_check env gid [lesson] ct = .ok res →
      res.countP (fun task => task.type == "exit") = 0) := by
  refine ⟨wrap_unsat h, ?_, ?_⟩
  · intro env gid ct lesson s res hin hp hres
    rw [List.countP_eq_zero]
    intro task hm hty
    obtain ⟨s2, t2, hin2, hp2, hw⟩ :=
      lessonTasks_entry_mem (get_single_ok hres) hm (by simpa using hty)
    rw [hin] at hin2
    injection hin2 with hs
    subst hs
    rw [hp] at hp2
    injection hp2 with ht
    subst ht
    rw [wrap_unsat h ct.tod] at hw
    exact Bool.noConfusion hw
  · intro env gid ct lesson s res hout hp hres
    rw [List.countP_eq_zero]
    intro task hm hty
    obtain ⟨s2, t2, hout2, hp2, hw⟩ :=
      lessonTasks_exit_mem (get_single_ok hres) hm (by simpa using hty)
    rw [hout] at hout2
    injection hout2 with hs
    subst hs
    rw [hp] at hp2
    injection hp2 with ht
    subst ht
    rw [wrap_unsat h ct.tod] at hw
    exact Bool.noConfusion hw

/-- Witness for C9: a 00:04:00 deadline (240 s) never opens its window,
here evaluated at 00:01:40. -/
theorem midnight_wrap_no_task_witness : inWindow 240 100 = false :=
  (midnight_wrap_no_task 240 (by decide)).1 100

/-- A key present in the notified set after the per-student loop was
either already there or belongs to a user to whom a message of this loop
was actually delivered. -/
lemma processStudents_new_key {env : DispatchEnv} {lesson : Lesson} {a : String} :
    ∀ {us : List Int} {s : List Key} {k : Key},
    k ∈ (processStudents env lesson a us s).1 →
    k ∈ s ∨ ∃ text, (k.1, text) ∈ (processStudents env lesson a us s).2 := by
  intro us
  induction us with
  | nil => intro s k h; exact Or.inl h
  | cons u rest ih =>
    intro s k h
    by_cases hmem : ((u, lesson.moduleName, a) : Key) ∈ s
    · simp only [processStudents, if_pos hmem] at h ⊢
      exact ih h
    · cases hs : env.sendOk u (buildText env lesson (pyOr (env.getUserLanguage u) "en") a)
      · simp only [processStudents, if_neg hmem, hs, Bool.false_eq_true,
          if_false] at h ⊢
        exact ih h
      · simp only [processStudents, if_neg hmem, hs, if_true] at h ⊢
        rcases ih h with hk | ⟨text2, ht⟩
        · rcases List.mem_cons.mp hk with hk1 | hk2
          · subst hk1
            exact Or.inr ⟨_, List.mem_cons_self _ _⟩
          · exact Or.inl hk2
        · exact Or.inr ⟨text2, List.mem_cons_of_mem _ ht⟩

/-- Every message the per-student loop records was sent successfully. -/
lemma processStudents_sent_ok {env : DispatchEnv} {lesson : Lesson} {a : String} :
    ∀ {us : List Int} {s : List Key} {u : Int} {text : String},
    (u, text) ∈ (processStudents env lesson a us s).2 →
    env.sendOk u text = true := by
  intro us
  induction us with
  | nil => intro s u text h; simp [processStudents] at h
  | cons u0 rest ih =>
    intro s u text h
    by_cases hmem : ((u0, lesson.moduleName, a) : Key) ∈ s
    · simp only [processStudents, if_pos hmem] at h
      exact ih h
    · cases hs : env.sendOk u0 (buildText env lesson (pyOr (env.getUserLanguage u0) "en") a)
      · simp only [processStudents, if_neg hmem, hs, Bool.false_eq_true,
          if_false] at h
        exact ih h
      · simp only [processStudents, if_neg hmem, hs, if_true] at h
        rcases List.mem_cons.mp h with h1 | h2
        · injection h1 with h1u h1t
          subst h1u
          subst h1t
          exact hs
        · exact ih h2

/-- C2: the key (user_id, moduleName, action_type) is added to the
notified set only after the corresponding send succeeds: every key new in
the set after the loop belongs to a user with a successfully delivered
message of the loop; when the send for the first student raises, the loop
result is exactly the result of processing the remaining students with
the key unrecorded — the failure neither records the key nor aborts the
cycle. -/
theorem key_recorded_only_after_send (env : DispatchEnv) (lesson : Lesson)
    (action_type : String) (students : List Int) (s : List Key) :
    (∀ k, k ∈ (processStudents env lesson action_type students s).1 →
      k ∈ s ∨ ∃ text,
        (k.1, text) ∈ (processStudents env lesson action_type students s).2) ∧
    (∀ u text, (u, text) ∈ (processStudents env lesson action_type students s).2 →
      env.sendOk u text = true) ∧
    (∀ u rest, students = u :: rest →
      ((u, lesson.moduleName, action_type) : Key) ∉ s →
      env.sendOk u
        (buildText env lesson (pyOr (env.getUserLanguage u) "en") action_type)
        = false →
      processStudents env lesson action_type students s =
        processStudents env lesson action_type rest s) := by
  refine ⟨fun k => processStudents_new_key, fun u text => processStudents_sent_ok, ?_⟩
  intro u rest hus hmem hs
  subst hus
  simp only [processStudents, if_neg hmem, hs, Bool.false_eq_true, if_false]

/-- Witness for C2: the send to user 5 raises, so the loop over [5, 6]
from an empty set equals the loop over [6] alone. -/
theorem key_recorded_only_after_send_witness :
    processStudents envD lessonW "entry" [5, 6] [] =
      processStudents envD lessonW "entry" [6] [] :=
  (key_recorded_only_after_send envD lessonW "entry" [5, 6] []).2.2 5 [6] rfl
    (by simp) rfl

/-- The per-student loop never removes keys from the notified set. -/
lemma processStudents_mono {env : DispatchEnv} {lesson : Lesson} {a : String} :
    ∀ {us : List Int} {s : List Key},
    s ⊆ (processStudents env lesson a us s).1 := by
  intro us
  induction us with
  | nil => intro s x hx; exact hx
  | cons u rest ih =>
    intro s
    by_cases hmem : ((u, lesson.moduleName, a) : Key) ∈ s
    · simp only [processStudents, if_pos hmem]
      exact ih
    · cases hs : env.sendOk u (buildText env lesson (pyOr (env.getUserLanguage u) "en") a)
      · simp only [processStudents, if_neg hmem, hs, Bool.false_eq_true, if_false]
        exact ih
      · simp only [processStudents, if_neg hmem, hs, if_true]
        exact fun x hx => ih (List.mem_cons_of_mem _ hx)

/-- The per-task loop never removes keys from the notified set. -/
lemma processEntries_mono {env : DispatchEnv} :
    ∀ {tasks : List CheckTask} {s : List Key},
    s ⊆ (processEntries env tasks s).1 := by
  intro tasks
  induction tasks with
  | nil => intro s x hx; exact hx
  | cons task rest ih =>
    intro s
    simp only [processEntries]
    exact fun x hx => ih (processStudents_mono hx)

/-- The per-group loop never removes keys from the notified set. -/
lemma processGroups_mono {env : DispatchEnv} {now : PyDateTime} :
    ∀ {gs : List (Option Int × List Lesson)} {s : List Key},
    s ⊆ (processGroups env now gs s).1 := by
  intro gs
  induction gs with
  | nil => intro s x hx; exact hx
  | cons p rest ih =>
    intro s
    rcases p with ⟨gid, sched⟩
    simp only [processGroups]
    rcases hlt : get_lessons_to_check env.matcher gid sched now with e | tasks
    · exact fun x hx => hx
    · exact fun x hx => ih (processEntries_mono hx)

/-- C6: membership in the notified set is idempotent and monotone: the
membership test is a pure function of the set, the test reports a key as
already notified right after its insertion, and a whole check cycle — the
only operation of the module that touches the set — never removes a key:
a key notified before a cycle is still notified after it. -/
theorem dedup_idempotent_monotone (env : DispatchEnv) (now : PyDateTime)
    (group_schedules : List (Option Int × List Lesson)) (s : List Key)
    (k : Key) :
    shouldNotify s k = shouldNotify s k ∧
    shouldNotify (markNotified s k) k = false ∧
    (k ∈ s → k ∈ (check_lesson_marks env now group_schedules s).notified) := by
  refine ⟨rfl, ?_, ?_⟩
  · by_cases hk : k ∈ s <;> simp [shouldNotify, markNotified, hk]
  · intro hk
    unfold check_lesson_marks
    split
    · exact hk
    · exact processGroups_mono hk

/-- Witness for C6: a key notified before a cycle on an empty schedule
map is still notified after it. -/
theorem dedup_idempotent_monotone_witness :
    ((5 : Int), "Algebra", "entry") ∈
      (check_lesson_marks envD ctW [] [((5 : Int), "Algebra", "entry")]).notified :=
  (dedup_idempotent_monotone envD ctW [] [((5 : Int), "Algebra", "entry")]
    ((5 : Int), "Algebra", "entry")).2.2 (by simp)

/-- C7: on an empty (falsy) schedule mapping, check_lesson_marks logs the
warning and returns at once: the notified set is unchanged, no message is
sent, and nothing is raised to the caller (the early return is taken, not
the exception handler). -/
theorem empty_schedules_early_return (env : DispatchEnv) (now : PyDateTime)
    (s : List Key) :
    check_lesson_marks env now [] s = ⟨s, [], true, false⟩ := rfl

/-- C8: an exception raised while constructing the scheduler, registering
a cron trigger or starting the scheduler is re-raised unchanged by
setup_lesson_check_scheduler — the except clause logs and re-raises, so
setup failure propagates to process startup. -/
theorem scheduler_setup_propagates {E S : Type} (env : SchedulerEnv E S)
    (e : E) (h : rawSetup env = .error e) :
    setup_lesson_check_scheduler env = .error e := by
  unfold setup_lesson_check_scheduler
  rw [h]

/-- Witness for C8: a failing scheduler constructor makes setup re-raise
its exception. -/
theorem scheduler_setup_propagates_witness :
    setup_lesson_check_scheduler schedEnvFail = .error "boom" :=
  scheduler_setup_propagates schedEnvFail "boom" rfl

/-- C10: sanitize_schedule_data keeps the list length and order, each
output dict holds only whitelisted keys with the values of the matching
input dict, and the four attendance fields are never among them. -/
theorem sanitize_whitelist {V : Type} (data : List (List (String × V))) :
    (sanitize_schedule_data data).length = data.length ∧
    (∀ i (hi : i < (sanitize_schedule_data data).length) (hj : i < data.length),
      (sanitize_schedule_data data).get ⟨i, hi⟩ = sanitizeItem (data.get ⟨i, hj⟩)) ∧
    (∀ (item : List (String × V)) kv, kv ∈ sanitizeItem item →
      kv.1 ∈ needed_fields ∧ kv.1 ≠ "checkIn" ∧ kv.1 ≠ "checkOut" ∧
      kv.1 ≠ "checkinEnd" ∧ kv.1 ≠ "checkoutEnd" ∧
      pyDictFind item kv.1 = some kv.2) := by
  refine ⟨List.length_map data sanitizeItem, ?_, ?_⟩
  · intro i hi hj
    simp [sanitize_schedule_data, List.get_eq_getElem]
  · intro item kv hkv
    obtain ⟨a, ha, hmatch⟩ := List.mem_filterMap.mp hkv
    rcases hfind : pyDictFind item a with _ | v <;> rw [hfind] at hmatch
    · exact Option.noConfusion hmatch
    · injection hmatch with hkv2
      subst hkv2
      have hnot : ∀ x ∈ needed_fields, x ≠ "checkIn" ∧ x ≠ "checkOut" ∧
          x ≠ "checkinEnd" ∧ x ≠ "checkoutEnd" := by decide
      obtain ⟨h1, h2, h3, h4⟩ := hnot a ha
      exact ⟨ha, h1, h2, h3, h4, hfind⟩

/-- Witness for C10: the sanitized witness dict keeps scheduleDate with
its input value, a whitelisted non-attendance key. -/
theorem sanitize_whitelist_witness :
    (("scheduleDate", "2026-10-11") : String × String).1 ∈ needed_fields ∧
    (("scheduleDate", "2026-10-11") : String × String).1 ≠ "checkIn" ∧
    (("scheduleDate", "2026-10-11") : String × String).1 ≠ "checkOut" ∧
    (("scheduleDate", "2026-10-11") : String × String).1 ≠ "checkinEnd" ∧
    (("scheduleDate", "2026-10-11") : String × String).1 ≠ "checkoutEnd" ∧
    pyDictFind rawItemW (("scheduleDate", "2026-10-11") : String × String).1 =
      some (("scheduleDate", "2026-10-11") : String × String).2 :=
  (sanitize_whitelist [rawItemW]).2.2 rawItemW ("scheduleDate", "2026-10-11")
    (by decide)

end UniBot
